import Mathlib

/-!
Verification of the video-combiner batch program.

This file gives a shallow embedding of the program's core logic:

* scanClips / combineRun / combine_videos embed VideoProcessor.combine_videos
  (src/video_processor.py, lines 97-157).  A clip is represented by the
  outcome of opening it: some d (VideoFileClip succeeded, duration d) or
  none (the per-clip try/except caught an exception).  The success of the
  final concatenate_videoclips + write_videofile step is a boolean input,
  since that step only calls the external codec library.  combineRun also
  returns the indices of the clips that are still open when the function
  returns, so resource-release behaviour is part of the model.
* process_job embeds VideoProcessor.process_job (lines 159-248).  The
  external collaborators (Drive listing, random.sample, downloads, clip
  opening, upload) are oracle fields of ProcEnv.  The model returns the
  job result dictionary, the trace of collaborator calls, and the local
  scratch files still present when process_job returns (a download that
  fails is modelled as creating no file; the output file exists exactly
  when the combine step reported success).
* validate_job_config embeds the function of the same name in
  src/config.py (lines 111-123).
* update_job_status embeds GoogleSheetsManager.update_job_status
  (src/google_sheets.py, lines 55-77), with the worksheet modelled as a
  list of rows.
* handleJob / runJobs embed the batch loop of main (src/main.py, lines
  83-134).  Wall-clock readings at each per-job checkpoint and the result
  of process_job are oracle fields of MainEnv; the loop's observable
  behaviour is the list of emitted events (status updates and process
  calls).  The elapsed-time part of the completed-status message is
  wall-clock dependent and therefore an oracle as well.

Durations and times are rationals (Python floats with exact arithmetic on
the inputs considered here); machine-level float rounding plays no role in
any of the verified properties.
-/

namespace VideoCombiner

/-- A source video as returned by get_videos_from_folder: Drive file
identifier and file name (size/mime filtering has already happened). -/
structure SourceVideo where
  id : String
  name : String
deriving DecidableEq

/-- A job record as built by GoogleSheetsManager.get_pending_jobs. -/
structure Job where
  job_id : String
  source_folder_id : String
  output_folder_id : String
  max_videos : Nat
  max_duration : ℚ
deriving DecidableEq

/-- The result dictionary returned by process_job.  Keys that a given
return path does not set are modelled as none. -/
structure JobResult where
  success : Bool
  error_message : Option String
  videos_processed : Nat
  output_url : Option String
deriving DecidableEq

/-- State of the clip scan in combine_videos: the clips list built so far
(each included clip as index and duration), the running total duration,
and the indices of clips that were opened and then closed during the scan
(the skip branch calls clip.close() immediately). -/
structure ScanResult where
  included : List (Nat × ℚ)
  total : ℚ
  closed : List Nat
deriving DecidableEq

/-- The for-loop of combine_videos (src/video_processor.py lines 106-126)
over indexed clips.  A none entry is a clip whose open/processing raised:
the except branch logs and continues, touching nothing.  For some d: if
total + d > max_duration the clip is closed and skipped; otherwise it is
appended to the clips list and total grows by d, and the loop breaks as
soon as total >= max_duration. -/
def scanClips : List (Nat × Option ℚ) → ℚ → ℚ → ScanResult
  | [], _, total => ⟨[], total, []⟩
  | (_, none) :: rest, maxD, total => scanClips rest maxD total
  | (i, some d) :: rest, maxD, total =>
    if maxD < total + d then
      let r := scanClips rest maxD total
      ⟨r.included, r.total, i :: r.closed⟩
    else if maxD ≤ total + d then ⟨[(i, d)], total + d, []⟩
    else
      let r := scanClips rest maxD (total + d)
      ⟨(i, d) :: r.included, r.total, r.closed⟩

/-- Whole-function model of combine_videos (lines 97-157).  First
component: the boolean return value.  Second component: indices of clips
still open when the function returns.  On the success path every included
clip is closed (lines 148-150); when concatenation or the output write
raises, the except branch at line 155 returns False without closing the
clips collected in the clips list. -/
def combineRun (clips : List (Option ℚ)) (writeOk : Bool) (maxDuration : ℚ) :
    Bool × List Nat :=
  if clips.isEmpty then (false, [])
  else
    let r := scanClips clips.enum maxDuration 0
    if r.included.isEmpty then (false, [])
    else if writeOk then (true, [])
    else (false, r.included.map Prod.fst)

/-- Return value of combine_videos. -/
def combine_videos (clips : List (Option ℚ)) (writeOk : Bool) (maxDuration : ℚ) :
    Bool :=
  (combineRun clips writeOk maxDuration).1

/-- validate_job_config from src/config.py lines 111-123. -/
def validate_job_config (job : Job) : List String :=
  (if 5 < job.max_videos then ["Max videos cannot exceed 5"] else []) ++
  (if (600 : ℚ) < job.max_duration then ["Max duration cannot exceed 10 minutes"] else [])

/-- One JobQueue worksheet row: JobID, CreatedDate, Status, Message,
OutputURL (the columns update_job_status can touch, plus the two it does
not). -/
structure Row where
  job_id : String
  created_date : String
  status : String
  message : String
  output_url : String
deriving DecidableEq

/-- GoogleSheetsManager.update_job_status (src/google_sheets.py lines
55-77): scan the current rows for the first one whose JobID equals
job_id; overwrite its Status and Message cells, overwrite OutputURL only
when the supplied output_url is truthy (non-empty), and return True.  If
no row matches, return False and change nothing. -/
def update_job_status : List Row → String → String → String → String →
    List Row × Bool
  | [], _, _, _, _ => ([], false)
  | r :: rest, jid, st, msg, out =>
    if r.job_id = jid then
      ({ r with
          status := st
          message := msg
          output_url := if out = "" then r.output_url else out } :: rest, true)
    else
      let p := update_job_status rest jid st msg out
      (r :: p.1, p.2)

/-- Observable actions of the batch loop in main. -/
inductive Event where
  | statusUpdate (job_id status message output_url : String)
  | processCall (job_id : String)
deriving DecidableEq

/-- Oracles for the batch loop: the wall-clock elapsed time read at the
checkpoint before the i-th remaining job, the outcome of
video_processor.process_job, and the formatted completed-status message
(its elapsed-seconds part depends on the wall clock). -/
structure MainEnv where
  elapsedBefore : Nat → ℚ
  procResult : Job → JobResult
  completedMsg : String → Nat → String

/-- MAX_RUN_TIME from GitHubActionsConfig (src/config.py line 71). -/
def MAX_RUN_TIME : ℚ := 840

/-- Body of the per-job try block in main (src/main.py lines 90-134):
validation failure marks the job failed with the joined error list and
does nothing else; otherwise the job is marked processing, process_job
runs, and the terminal status is written from its result. -/
def handleJob (env : MainEnv) (job : Job) : List Event :=
  let errors := validate_job_config job
  if errors.isEmpty = false then
    [Event.statusUpdate job.job_id "failed" (String.intercalate "; " errors) ""]
  else
    Event.statusUpdate job.job_id "processing" "Downloading videos..." "" ::
    Event.processCall job.job_id ::
    (let r := env.procResult job
     if r.success then
       [Event.statusUpdate job.job_id "completed"
          (env.completedMsg job.job_id r.videos_processed) (r.output_url.getD "")]
     else
       [Event.statusUpdate job.job_id "failed" (r.error_message.getD "") ""])

/-- The batch loop of main (src/main.py lines 83-134): before each job the
elapsed time is compared against MAX_RUN_TIME; strictly exceeding it
breaks out of the loop, otherwise the job is handled in full and the loop
moves on. -/
def runJobs (env : MainEnv) : List Job → Nat → List Event
  | [], _ => []
  | job :: rest, i =>
    if MAX_RUN_TIME < env.elapsedBefore i then []
    else handleJob env job ++ runJobs env rest (i + 1)

/-- Oracles for process_job: the filtered source-video list returned by
get_videos_from_folder, the random.sample draw, per-video download
success, the clip-open outcome per local path, and the success of the
write and upload steps. -/
structure ProcEnv where
  sourceVideos : List SourceVideo
  sample : List SourceVideo → Nat → List SourceVideo
  downloadOk : SourceVideo → Bool
  clipOpen : String → Option ℚ
  writeOk : Bool
  uploadOk : Bool
  uploadUrl : String

/-- The scratch directory created by tempfile.mkdtemp in the constructor. -/
def temp_dir : String := "/tmp/scratch"

/-- Local path of a downloaded video: os.path.join(temp_dir, filename)
with filename = the Drive file name (line 57). -/
def localPath (v : SourceVideo) : String := temp_dir ++ "/" ++ v.name

/-- Local path of the combined output file (lines 202-203). -/
def output_path (job : Job) : String :=
  temp_dir ++ "/combined_" ++ job.job_id ++ ".mp4"

/-- The random.sample call of process_job (lines 180-183). -/
def selected_videos (env : ProcEnv) (job : Job) : List SourceVideo :=
  env.sample env.sourceVideos (min job.max_videos env.sourceVideos.length)

/-- The download loop of process_job (lines 188-192): each selected video
is downloaded in order; successes contribute their local path, failures
are dropped. -/
def local_video_paths (env : ProcEnv) (job : Job) : List String :=
  (selected_videos env job).filterMap
    (fun v => if env.downloadOk v then some (localPath v) else none)

/-- Collaborator calls made by process_job. -/
inductive PEvent where
  | downloadCall (v : SourceVideo) (ok : Bool)
  | combineCall (paths : List String)
  | uploadCall (path folder name : String)
  | cleanupCall (paths : List String)
deriving DecidableEq

/-- Outcome of one process_job run: the returned result dictionary, the
trace of collaborator calls, and the local scratch files still present at
return. -/
structure ProcOutcome where
  result : JobResult
  events : List PEvent
  scratchFiles : List String
deriving DecidableEq

/-- VideoProcessor.process_job (src/video_processor.py lines 159-248).
Return paths in source order: empty listing; empty downloaded set; combine
failure; upload failure; success.  cleanup_temp_files runs only on the
success path (line 234); the failure returns leave the downloaded files
(and, after a successful combine, the output file) on disk. -/
def process_job (env : ProcEnv) (job : Job) : ProcOutcome :=
  if env.sourceVideos.isEmpty then
    ⟨⟨false, some "No videos found in source folder", 0, none⟩, [], []⟩
  else
    let sel := selected_videos env job
    let dlEvents := sel.map (fun v => PEvent.downloadCall v (env.downloadOk v))
    let paths := local_video_paths env job
    if paths.isEmpty then
      ⟨⟨false, some "Failed to download any videos", 0, none⟩, dlEvents, []⟩
    else
      let outP := output_path job
      let outName := "combined_" ++ job.job_id ++ ".mp4"
      let ok := combine_videos (paths.map env.clipOpen) env.writeOk job.max_duration
      if ok = false then
        ⟨⟨false, some "Failed to combine videos", 0, none⟩,
          dlEvents ++ [PEvent.combineCall paths], paths⟩
      else if env.uploadOk = false then
        ⟨⟨false, some "Failed to upload result", paths.length, none⟩,
          dlEvents ++ [PEvent.combineCall paths,
            PEvent.uploadCall outP job.output_folder_id outName],
          paths ++ [outP]⟩
      else
        ⟨⟨true, none, paths.length, some env.uploadUrl⟩,
          dlEvents ++ [PEvent.combineCall paths,
            PEvent.uploadCall outP job.output_folder_id outName,
            PEvent.cleanupCall (paths ++ [outP])],
          []⟩

/-- Documented contract of random.sample(population, k) at the call site
(k never exceeds the population size there): the draw has length k and is
a sub-permutation of the population, i.e. k elements taken at distinct
positions, in some order. -/
def SampleOk (population : List SourceVideo) (k : Nat) (out : List SourceVideo) :
    Prop :=
  out.length = k ∧ out.Subperm population

/-- Concrete batch-loop oracle used by witnesses: the clock never advances
and every processed job succeeds. -/
def envMain : MainEnv where
  elapsedBefore := fun _ => 0
  procResult := fun _ => ⟨true, none, 1, some "http://drive/view"⟩
  completedMsg := fun _ _ => "Successfully processed 1 videos in 1.0s"

/-- Concrete batch-loop oracle used by witnesses: the clock is already past
the run-time ceiling at the first checkpoint. -/
def envMainLate : MainEnv where
  elapsedBefore := fun _ => 900
  procResult := fun _ => ⟨true, none, 1, some "http://drive/view"⟩
  completedMsg := fun _ _ => "Successfully processed 1 videos in 1.0s"

/-- A job that violates the max-videos policy cap. -/
def jobBad : Job := ⟨"j9", "srcF", "outF", 7, 300⟩

/-- A well-formed job requesting at most 3 videos and 300 seconds. -/
def jobOk : Job := ⟨"j1", "srcF", "outF", 3, 300⟩

/-- A job requesting zero videos. -/
def jobZero : Job := ⟨"j0", "srcF", "outF", 0, 300⟩

/-- Five source videos with distinct identifiers. -/
def videos5 : List SourceVideo :=
  [⟨"id1", "a.mp4"⟩, ⟨"id2", "b.mp4"⟩, ⟨"id3", "c.mp4"⟩,
   ⟨"id4", "d.mp4"⟩, ⟨"id5", "e.mp4"⟩]

/-- Concrete process_job oracle used by witnesses: five 10-second videos,
every collaborator call succeeds, the random draw takes the first k
entries. -/
def envProc : ProcEnv where
  sourceVideos := videos5
  sample := fun pop k => pop.take k
  downloadOk := fun _ => true
  clipOpen := fun _ => some 10
  writeOk := true
  uploadOk := true
  uploadUrl := "http://drive/view"

/-- Like envProc but the upload step fails. -/
def envProcNoUpload : ProcEnv :=
  { envProc with uploadOk := false }

/-- Like envProc but every clip fails to open, so the combine step fails
with the no-valid-clips condition. -/
def envProcBadClips : ProcEnv :=
  { envProc with clipOpen := fun _ => none }

/-- A worksheet row whose output cell already holds a value. -/
def rowOld : Row := ⟨"j1", "2024-01-01", "pending", "waiting", "OLD"⟩

/-- The running total after the scan equals the starting total plus the sum
of the included durations. -/
lemma scanClips_total_eq (l : List (Nat × Option ℚ)) (maxD : ℚ) :
    ∀ t : ℚ, (scanClips l maxD t).total
      = t + ((scanClips l maxD t).included.map Prod.snd).sum := by
  induction l with
  | nil => intro t; simp [scanClips]
  | cons p rest ih =>
    intro t
    obtain ⟨i, d⟩ := p
    cases d with
    | none => simpa [scanClips] using ih t
    | some d =>
      by_cases h1 : maxD < t + d
      · simpa [scanClips, h1] using ih t
      · by_cases h2 : maxD ≤ t + d
        · simp [scanClips, h1, h2]
        · simp only [scanClips, if_neg h1, if_neg h2, List.map_cons, List.sum_cons]
          rw [ih (t + d)]
          ring

/-- The running total never exceeds the duration budget when it starts
below it. -/
lemma scanClips_total_le (l : List (Nat × Option ℚ)) (maxD : ℚ) :
    ∀ t : ℚ, t ≤ maxD → (scanClips l maxD t).total ≤ maxD := by
  induction l with
  | nil => intro t ht; simpa [scanClips] using ht
  | cons p rest ih =>
    intro t ht
    obtain ⟨i, d⟩ := p
    cases d with
    | none => simpa [scanClips] using ih t ht
    | some d =>
      by_cases h1 : maxD < t + d
      · simpa [scanClips, h1] using ih t ht
      · by_cases h2 : maxD ≤ t + d
        · simpa [scanClips, h1, h2] using not_lt.mp h1
        · simpa [scanClips, h1, h2] using ih (t + d) (not_lt.mp h1)

/-- C1: the clip scan of combine_videos processes the clips in the given
order with a running total of included durations: a clip that would push
the total past the budget is skipped (and closed) without counting, any
other clip is appended and counted, and scanning stops as soon as the
total reaches the budget.  Conjuncts: the final total is exactly the sum
of the included durations; the total never exceeds the budget (when the
budget is non-negative); on durations [120, 50, 200, 10] with budget 150
exactly the clips of durations 120 and 10 are included, with total 130
(clips 1 and 2 are opened, skipped and closed); and on [100, 50, 7] with
budget 150 the scan stops early after reaching 150, never opening the
third clip. -/
theorem combine_scan_policy (clips : List (Option ℚ)) (maxD : ℚ) :
    ((scanClips clips.enum maxD 0).total
        = ((scanClips clips.enum maxD 0).included.map Prod.snd).sum) ∧
    (0 ≤ maxD → (scanClips clips.enum maxD 0).total ≤ maxD) ∧
    scanClips (([120, 50, 200, 10] : List ℚ).map some).enum 150 0
      = ⟨[(0, 120), (3, 10)], 130, [1, 2]⟩ ∧
    scanClips (([100, 50, 7] : List ℚ).map some).enum 150 0
      = ⟨[(0, 100), (1, 50)], 150, []⟩ := by
  refine ⟨?_, ?_, ?_, ?_⟩
  · simpa using scanClips_total_eq clips.enum maxD 0
  · intro h
    exact scanClips_total_le clips.enum maxD 0 h
  · norm_num [scanClips, List.enum, List.enumFrom]
  · norm_num [scanClips, List.enum, List.enumFrom]

/-- Witness for combine_scan_policy at a concrete input. -/
theorem combine_scan_policy_w :
    (0 : ℚ) ≤ 150 ∧
    (scanClips (([120, 50, 200, 10] : List ℚ).map some).enum 150 0).total ≤ 150 :=
  ⟨by norm_num,
   (combine_scan_policy (([120, 50, 200, 10] : List ℚ).map some) 150).2.1 (by norm_num)⟩

/-- C4 counterexample: one clip of duration 10 is opened and included, then
the final concatenation/write step fails; combine_videos returns on the
except path with clip 0 still open, so not every opened clip resource is
released on every exit path. -/
theorem combineRun_leak_cex :
    combineRun [some 10] false 300 = (false, [0]) ∧
    (combineRun [some 10] false 300).2 ≠ [] := by
  constructor
  · norm_num [combineRun, scanClips, List.enum, List.enumFrom, List.isEmpty]
  · norm_num [combineRun, scanClips, List.enum, List.enumFrom, List.isEmpty]

/-- C4 amended: clips skipped by the duration check are closed during the
scan, and when the write step succeeds or no clip was included every
opened clip has been released at return; but when the final concatenation
or output write fails with a non-empty inclusion list, exactly the
included clips are still open when combine_videos returns. -/
theorem combineRun_release (clips : List (Option ℚ)) (w : Bool) (maxD : ℚ) :
    ((w = true ∨ (scanClips clips.enum maxD 0).included = []) →
        (combineRun clips w maxD).2 = []) ∧
    (w = false → (scanClips clips.enum maxD 0).included ≠ [] →
        (combineRun clips w maxD).2
            = (scanClips clips.enum maxD 0).included.map Prod.fst ∧
          (combineRun clips w maxD).2 ≠ []) := by
  constructor
  · rintro (hw | hinc)
    · subst hw
      by_cases hc : clips.isEmpty
      · simp [combineRun, hc]
      · by_cases hi : (scanClips clips.enum maxD 0).included.isEmpty <;>
          simp_all [combineRun]
    · by_cases hc : clips.isEmpty <;> simp [combineRun, hc, hinc]
  · intro hw hinc
    subst hw
    have hc : ¬ clips.isEmpty := by
      intro h
      have hnil : clips = [] := by simpa using h
      subst hnil
      simp [List.enum, scanClips] at hinc
    simp [combineRun, hc, hinc]

/-- Witness for combineRun_release at a concrete input. -/
theorem combineRun_release_w :
    (combineRun [some 10] false 300).2
        = (scanClips ([some 10] : List (Option ℚ)).enum 300 0).included.map Prod.fst ∧
    (combineRun [some 10] false 300).2 ≠ [] :=
  (combineRun_release [some 10] false 300).2 rfl
    (by norm_num [scanClips, List.enum, List.enumFrom])

/-- C7: combine_videos is a total boolean function of its inputs (the model
cannot raise); a per-clip open/processing error only makes the scan skip
that clip; and the return value is false exactly when the inclusion list
ends empty (which covers the empty input list) or the final
concatenation/write step fails. -/
theorem combine_videos_return_spec (clips : List (Option ℚ)) (w : Bool) (maxD : ℚ) :
    (combine_videos clips w maxD = false
        ↔ (scanClips clips.enum maxD 0).included = [] ∨ w = false) ∧
    (∀ (i : Nat) (rest : List (Nat × Option ℚ)) (t : ℚ),
        scanClips ((i, none) :: rest) maxD t = scanClips rest maxD t) := by
  constructor
  · by_cases hc : clips.isEmpty
    · have hnil : clips = [] := by simpa using hc
      subst hnil
      simp [combine_videos, combineRun, scanClips, List.enum]
    · by_cases hi : (scanClips clips.enum maxD 0).included = []
      · simp [combine_videos, combineRun, hc, hi]
      · cases w <;> simp [combine_videos, combineRun, hc, hi]
  · intro i rest t
    simp [scanClips]

/-- C3: when the batch loop reaches a job whose max_videos exceeds 5 or
whose max_duration exceeds 600, its whole contribution to the loop's
event trace is a single failed-status update carrying the joined list of
violated constraints; in particular no process call (hence no download or
upload, which only happen inside process_job) is made for it. -/
theorem invalid_job_marks_failed (env : MainEnv) (job : Job) (rest : List Job) (i : Nat)
    (htime : env.elapsedBefore i ≤ MAX_RUN_TIME)
    (hbad : 5 < job.max_videos ∨ (600 : ℚ) < job.max_duration) :
    runJobs env (job :: rest) i
        = Event.statusUpdate job.job_id "failed"
            (String.intercalate "; " (validate_job_config job)) ""
          :: runJobs env rest (i + 1) ∧
    (∀ jid, Event.processCall jid ∉ handleJob env job) := by
  have herr : (validate_job_config job).isEmpty = false := by
    rcases hbad with h | h <;> simp [validate_job_config, h]
  have hHandle : handleJob env job
      = [Event.statusUpdate job.job_id "failed"
          (String.intercalate "; " (validate_job_config job)) ""] := by
    simp [handleJob, herr]
  constructor
  · simp [runJobs, not_lt.mpr htime, hHandle]
  · intro jid
    simp [hHandle]

/-- Witness for invalid_job_marks_failed: a job asking for 7 videos. -/
theorem invalid_job_marks_failed_w :
    runJobs envMain [jobBad] 0
        = Event.statusUpdate jobBad.job_id "failed"
            (String.intercalate "; " (validate_job_config jobBad)) ""
          :: runJobs envMain [] 1 ∧
    (∀ jid, Event.processCall jid ∉ handleJob envMain jobBad) :=
  invalid_job_marks_failed envMain jobBad [] 0
    (by norm_num [envMain, MAX_RUN_TIME]) (Or.inl (by norm_num [jobBad]))

/-- C9: the elapsed-time check happens at the checkpoint before each job:
when the elapsed reading at that checkpoint exceeds the ceiling, the loop
stops and that job together with every later pending job receives no
event at all (no status update, no process call); when the reading is
within the ceiling, the job at the head is handled in full regardless of
any later clock reading, so the budget is never enforced mid-job. -/
theorem timeout_checkpoint (env : MainEnv) (job : Job) (rest : List Job) (i : Nat) :
    (MAX_RUN_TIME < env.elapsedBefore i → runJobs env (job :: rest) i = []) ∧
    (env.elapsedBefore i ≤ MAX_RUN_TIME →
        runJobs env (job :: rest) i = handleJob env job ++ runJobs env rest (i + 1)) := by
  constructor
  · intro h
    simp [runJobs, h]
  · intro h
    simp [runJobs, not_lt.mpr h]

/-- Witness for timeout_checkpoint: elapsed 900 exceeds the 840-second
ceiling, so the loop emits nothing. -/
theorem timeout_checkpoint_w :
    runJobs envMainLate [jobOk] 0 = [] :=
  (timeout_checkpoint envMainLate jobOk [] 0).1 (by norm_num [envMainLate, MAX_RUN_TIME])

/-- When no row carries the requested job id, update_job_status changes
nothing and returns false. -/
lemma update_job_status_not_found (store : List Row) (jid st msg out : String)
    (h : ∀ r ∈ store, r.job_id ≠ jid) :
    update_job_status store jid st msg out = (store, false) := by
  induction store with
  | nil => rfl
  | cons r rest ih =>
    have hr : r.job_id ≠ jid := h r (by simp)
    have hrest := ih (fun x hx => h x (List.mem_cons_of_mem _ hx))
    simp [update_job_status, hr, hrest]

/-- When the first matching row sits after the rows of pre,
update_job_status rewrites exactly that row and returns true. -/
lemma update_job_status_found (pre : List Row) (row : Row) (post : List Row)
    (jid st msg out : String)
    (hpre : ∀ r ∈ pre, r.job_id ≠ jid) (hrow : row.job_id = jid) :
    update_job_status (pre ++ row :: post) jid st msg out
      = (pre ++ { row with
            status := st
            message := msg
            output_url := if out = "" then row.output_url else out } :: post, true) := by
  induction pre with
  | nil => simp [update_job_status, hrow]
  | cons r rest ih =>
    have hr : r.job_id ≠ jid := hpre r (by simp)
    have hrest := ih (fun x hx => hpre x (List.mem_cons_of_mem _ hx))
    simp [update_job_status, hr, hrest]

/-- C8 counterexample: updating the job with an empty outputRef (the
default every failure-path call uses) leaves the output cell at its old
value instead of overwriting it with the given empty value, so the claim
that status, message and output cells are all overwritten with the given
values fails. -/
theorem update_job_status_out_cex :
    (update_job_status [rowOld] "j1" "failed" "boom" "").1
        = [⟨"j1", "2024-01-01", "failed", "boom", "OLD"⟩] ∧
    (update_job_status [rowOld] "j1" "failed" "boom" "").1
        ≠ [{ rowOld with status := "failed", message := "boom", output_url := "" }] := by
  constructor
  · simp [update_job_status, rowOld]
  · simp [update_job_status, rowOld]

/-- C8 amended: if no row carries the given jobId the call changes nothing
and returns false; if one does, the first such row has its status and
message cells overwritten with the given values, its output cell
overwritten only when the given outputRef is non-empty (otherwise left
unchanged), every other cell and row is untouched, and the call returns
true. -/
theorem update_job_status_spec (store : List Row) (jid st msg out : String) :
    ((∀ r ∈ store, r.job_id ≠ jid) →
        update_job_status store jid st msg out = (store, false)) ∧
    (∀ pre row post, store = pre ++ row :: post →
        (∀ r ∈ pre, r.job_id ≠ jid) → row.job_id = jid →
        update_job_status store jid st msg out
          = (pre ++ { row with
                status := st
                message := msg
                output_url := if out = "" then row.output_url else out } :: post,
              true)) := by
  refine ⟨fun h => update_job_status_not_found store jid st msg out h, ?_⟩
  rintro pre row post rfl hpre hrow
  exact update_job_status_found pre row post jid st msg out hpre hrow

/-- Witness for update_job_status_spec at a concrete store. -/
theorem update_job_status_spec_w :
    update_job_status [rowOld] "j1" "completed" "done" "http://x"
      = ([⟨"j1", "2024-01-01", "completed", "done", "http://x"⟩], true) := by
  have h := (update_job_status_spec [rowOld] "j1" "completed" "done" "http://x").2
      [] rowOld [] rfl (by simp) rfl
  simpa [rowOld] using h

/-- A non-empty list is not isEmpty. -/
lemma isEmpty_false_of_ne {α : Type} {l : List α} (h : l ≠ []) : l.isEmpty = false := by
  cases l with
  | nil => exact absurd rfl h
  | cons a t => rfl

/-- When the filter accepts every element, conditional filterMap is map. -/
lemma filterMap_if_all_true {α β : Type} (f : α → Bool) (g : α → β) (l : List α)
    (h : ∀ v ∈ l, f v = true) :
    l.filterMap (fun v => if f v then some (g v) else none) = l.map g := by
  induction l with
  | nil => rfl
  | cons a t ih =>
    have ha := h a (by simp)
    simp only [List.filterMap_cons, ha, if_pos, List.map_cons]
    rw [ih (fun v hv => h v (by simp [hv]))]

/-- The downloaded paths of jobOk under the envProcNoUpload oracle. -/
lemma paths_envProcNoUpload :
    local_video_paths envProcNoUpload jobOk
      = [temp_dir ++ "/" ++ "a.mp4", temp_dir ++ "/" ++ "b.mp4",
         temp_dir ++ "/" ++ "c.mp4"] := by
  simp [local_video_paths, selected_videos, envProcNoUpload, envProc, videos5,
    jobOk, localPath]

/-- The downloaded paths of jobOk under the envProcBadClips oracle. -/
lemma paths_envProcBadClips :
    local_video_paths envProcBadClips jobOk
      = [temp_dir ++ "/" ++ "a.mp4", temp_dir ++ "/" ++ "b.mp4",
         temp_dir ++ "/" ++ "c.mp4"] := by
  simp [local_video_paths, selected_videos, envProcBadClips, envProc, videos5,
    jobOk, localPath]

/-- C2 counterexample: a job whose three source videos download fine but
whose clips all fail to open ends with a failed combine step, and
process_job returns with the three downloaded scratch files still on
disk, so not every local scratch file has been removed when processing
ends. -/
theorem scratch_leak_cex :
    (process_job envProcBadClips jobOk).result.success = false ∧
    (process_job envProcBadClips jobOk).result.error_message
        = some "Failed to combine videos" ∧
    (process_job envProcBadClips jobOk).scratchFiles ≠ [] := by
  refine ⟨?_, ?_, ?_⟩ <;>
    simp [process_job, paths_envProcBadClips, envProcBadClips, envProc, jobOk,
      videos5, selected_videos, local_video_paths, localPath, combine_videos,
      combineRun, scanClips, List.enum, List.enumFrom]

/-- C2 amended: cleanup_temp_files runs only on the fully successful path,
so scratch files are all removed exactly when the job succeeds or fails
before anything was downloaded; when the combine step fails the
downloaded files remain, and when the upload step fails the downloaded
files and the produced output file remain. -/
theorem scratch_cleanup_spec (env : ProcEnv) (job : Job) :
    ((process_job env job).result.success = true →
        (process_job env job).scratchFiles = []) ∧
    ((process_job env job).result.error_message = some "No videos found in source folder" →
        (process_job env job).scratchFiles = []) ∧
    ((process_job env job).result.error_message = some "Failed to download any videos" →
        (process_job env job).scratchFiles = []) ∧
    ((process_job env job).result.error_message = some "Failed to combine videos" →
        (process_job env job).scratchFiles = local_video_paths env job) ∧
    ((process_job env job).result.error_message = some "Failed to upload result" →
        (process_job env job).scratchFiles
          = local_video_paths env job ++ [output_path job]) := by
  by_cases h1 : env.sourceVideos.isEmpty
  · refine ⟨?_, ?_, ?_, ?_, ?_⟩ <;> intro h <;> simp_all [process_job]
  · by_cases h2 : (local_video_paths env job).isEmpty
    · refine ⟨?_, ?_, ?_, ?_, ?_⟩ <;> intro h <;> simp_all [process_job]
    · by_cases h3 : combine_videos ((local_video_paths env job).map env.clipOpen)
          env.writeOk job.max_duration = false
      · refine ⟨?_, ?_, ?_, ?_, ?_⟩ <;> intro h <;> simp_all [process_job]
      · by_cases h4 : env.uploadOk = false
        · refine ⟨?_, ?_, ?_, ?_, ?_⟩ <;> intro h <;> simp_all [process_job]
        · refine ⟨?_, ?_, ?_, ?_, ?_⟩ <;> intro h <;> simp_all [process_job]

/-- Witness for scratch_cleanup_spec on the combine-failure branch. -/
theorem scratch_cleanup_spec_w :
    (process_job envProcBadClips jobOk).scratchFiles
      = local_video_paths envProcBadClips jobOk :=
  (scratch_cleanup_spec envProcBadClips jobOk).2.2.2.1
    (by simp [process_job, paths_envProcBadClips, envProcBadClips, envProc, jobOk,
      videos5, selected_videos, local_video_paths, localPath, combine_videos,
      combineRun, scanClips, List.enum, List.enumFrom])

/-- C5: for any sampling oracle satisfying the random.sample contract
(uniform sampling without replacement; uniformity itself is a
distributional property outside this embedding, the contract covers the
rest), the selected subset has exactly min(max_videos, number of source
videos) entries, never repeats an identifier when the source identifiers
are distinct, and its drawn order is the order fed to the assembler: when
every download succeeds the path list handed to combine_videos is exactly
the selected videos mapped to local paths in drawn order. -/
theorem random_selection_spec (env : ProcEnv) (job : Job)
    (hs : SampleOk env.sourceVideos (min job.max_videos env.sourceVideos.length)
            (selected_videos env job))
    (hid : (env.sourceVideos.map SourceVideo.id).Nodup) :
    (selected_videos env job).length = min job.max_videos env.sourceVideos.length ∧
    ((selected_videos env job).map SourceVideo.id).Nodup ∧
    ((∀ v ∈ selected_videos env job, env.downloadOk v = true) →
        local_video_paths env job = (selected_videos env job).map localPath) ∧
    (env.sourceVideos ≠ [] → local_video_paths env job ≠ [] →
        PEvent.combineCall (local_video_paths env job) ∈ (process_job env job).events) := by
  refine ⟨hs.1, ?_, ?_, ?_⟩
  · obtain ⟨l, hperm, hsub⟩ := hs.2
    have h1 : (l.map SourceVideo.id).Nodup :=
      List.Nodup.sublist (hsub.map SourceVideo.id) hid
    exact ((hperm.map SourceVideo.id).nodup_iff).mp h1
  · intro hdl
    exact filterMap_if_all_true env.downloadOk localPath (selected_videos env job) hdl
  · intro hne hpe
    have h1 := isEmpty_false_of_ne hne
    have h2 := isEmpty_false_of_ne hpe
    by_cases h3 : combine_videos ((local_video_paths env job).map env.clipOpen)
        env.writeOk job.max_duration = false
    · simp [process_job, h1, h2, h3]
    · by_cases h4 : env.uploadOk = false <;> simp [process_job, h1, h2, h3, h4]

/-- Witness for random_selection_spec: maxVideos 3 over 5 distinct source
videos gives 3 selected entries with distinct identifiers. -/
theorem random_selection_spec_w :
    (selected_videos envProc jobOk).length
        = min jobOk.max_videos envProc.sourceVideos.length ∧
    ((selected_videos envProc jobOk).map SourceVideo.id).Nodup := by
  have h := random_selection_spec envProc jobOk
    ⟨rfl, List.Sublist.subperm (List.take_sublist 3 videos5)⟩ (by decide)
  exact ⟨h.1, h.2.1⟩

/-- C6: when the combine step succeeds but the upload fails, process_job
returns a failure whose message is the upload-failure message and whose
videos_processed equals the (non-zero) number of successfully downloaded
videos. -/
theorem upload_failure_result (env : ProcEnv) (job : Job)
    (h1 : env.sourceVideos ≠ [])
    (h2 : local_video_paths env job ≠ [])
    (h3 : combine_videos ((local_video_paths env job).map env.clipOpen)
            env.writeOk job.max_duration = true)
    (h4 : env.uploadOk = false) :
    (process_job env job).result
      = ⟨false, some "Failed to upload result", (local_video_paths env job).length, none⟩ ∧
    0 < (process_job env job).result.videos_processed := by
  have hne := isEmpty_false_of_ne h1
  have hpe := isEmpty_false_of_ne h2
  constructor
  · simp [process_job, hne, hpe, h3, h4]
  · simp [process_job, hne, hpe, h3, h4]
    exact List.length_pos.mpr h2

/-- Witness for upload_failure_result: three 10-second clips combine fine,
then the upload fails. -/
theorem upload_failure_result_w :
    (process_job envProcNoUpload jobOk).result
      = ⟨false, some "Failed to upload result",
          (local_video_paths envProcNoUpload jobOk).length, none⟩ ∧
    0 < (process_job envProcNoUpload jobOk).result.videos_processed :=
  upload_failure_result envProcNoUpload jobOk
    (by simp [envProcNoUpload, envProc, videos5])
    (by simp [local_video_paths, selected_videos, envProcNoUpload, envProc,
        videos5, jobOk])
    (by
      rw [paths_envProcNoUpload]
      norm_num [envProcNoUpload, envProc, jobOk, combine_videos, combineRun,
        scanClips, List.enum, List.enumFrom])
    rfl

/-- C10: a job with max_videos 0 (and max_duration within the cap) passes
validation, selects nothing, downloads nothing (empty collaborator
trace), and process_job returns the download-failure result with zero
videos processed. -/
theorem zero_max_videos_spec (env : ProcEnv) (job : Job)
    (hmv : job.max_videos = 0)
    (hmd : job.max_duration ≤ 600)
    (hne : env.sourceVideos ≠ [])
    (hs : SampleOk env.sourceVideos (min job.max_videos env.sourceVideos.length)
            (selected_videos env job)) :
    validate_job_config job = [] ∧
    selected_videos env job = [] ∧
    (process_job env job).events = [] ∧
    (process_job env job).result
      = ⟨false, some "Failed to download any videos", 0, none⟩ := by
  have hvd : validate_job_config job = [] := by
    simp [validate_job_config, hmv, not_lt.mpr hmd]
  have hsel : selected_videos env job = [] := by
    have hl := hs.1
    rw [hmv] at hl
    simpa using hl
  have hpaths : local_video_paths env job = [] := by
    simp [local_video_paths, hsel]
  have h1 := isEmpty_false_of_ne hne
  refine ⟨hvd, hsel, ?_, ?_⟩ <;> simp [process_job, h1, hpaths, hsel]

/-- Witness for zero_max_videos_spec at a concrete environment. -/
theorem zero_max_videos_spec_w :
    validate_job_config jobZero = [] ∧
    selected_videos envProc jobZero = [] ∧
    (process_job envProc jobZero).result
      = ⟨false, some "Failed to download any videos", 0, none⟩ := by
  have h := zero_max_videos_spec envProc jobZero rfl (by norm_num [jobZero])
    (by decide) ⟨rfl, List.nil_subperm⟩
  exact ⟨h.1, h.2.1, h.2.2.2⟩

end VideoCombiner
